import Mathlib

/-!
Verification development for the `elastictools` index-administration facade
(`elastictools/indextools.py`).

The Python module wraps a remote Elasticsearch-style client.  We embed it
shallowly:

* JSON-ish payloads (`mappings`, `settings`, request bodies) are `JVal` /
  `Dict` (an insertion-ordered association list, matching Python `dict`
  semantics for the operations used: item lookup, item assignment, `pop`).
* The remote service is a pure state `ESState`: the set of existing indices,
  each carrying the server-side `mapping`, `settings` and `stats` content that
  the client calls `get_mapping` / `get_settings` / `stats` would report.  The
  real client returns these wrapped in a per-index-name envelope which the
  Python code immediately unwraps (`...[index_name]['mappings']` etc.); the
  model returns the unwrapped content directly, and every call site guards
  with an existence check exactly as the source does.
* Methods that write (`create`, `delete`, `clone`) return, besides their
  `Except` result, the final service state and the list of write requests
  (`Effect`) issued to the client, in order.  Exceptions abort the method at
  the raise point, leaving the state and the effects issued so far.
* Python truthiness tests on optional arguments (`if body:`, `if size:`,
  `if script:`, `if doc_type:`, `if not mapping:`, `if not overwrite:`) are
  modelled by explicit truthiness functions: `None`, `0`, `""` and empty
  dicts are falsy.
-/

namespace ElasticTools

/-- JSON-like values exchanged with the index service. -/
inductive JVal where
  | null : JVal
  | str : String → JVal
  | int : Int → JVal
  | obj : List (String × JVal) → JVal
deriving Repr

/-- A Python dict with string keys, as an insertion-ordered association list. -/
abbrev Dict := List (String × JVal)

/-- Lookup in an association list (first binding wins, as keys are unique in
dicts produced by Python). -/
def findEntry {α : Type} (l : List (String × α)) (k : String) : Option α :=
  match l with
  | [] => none
  | (k', v) :: rest => if k' = k then some v else findEntry rest k

/-- Item assignment `l[k] = v`: replaces the binding in place if the key is
present (Python dicts keep the insertion position), appends it otherwise. -/
def setEntry {α : Type} (l : List (String × α)) (k : String) (v : α) :
    List (String × α) :=
  match l with
  | [] => [(k, v)]
  | (k', v') :: rest => if k' = k then (k, v) :: rest else (k', v') :: setEntry rest k v

/-- Item lookup `d[k]` (absence gives `none`, modelling a `KeyError` at call
sites that do not guard). -/
def Dict.get? (d : Dict) (k : String) : Option JVal :=
  findEntry d k

/-- Item assignment `d[k] = v`. -/
def Dict.set (d : Dict) (k : String) (v : JVal) : Dict :=
  setEntry d k v

/-- Python `d.pop(k, None)`: removes the binding for `k` if present, and is a
no-op otherwise. -/
def Dict.pop (d : Dict) (k : String) : Dict :=
  d.filter (fun p => p.1 != k)

/-- Python truthiness of an optional dict argument: `None` and `{}` are falsy. -/
def truthyDict : Option Dict → Bool
  | none => false
  | some d => !d.isEmpty

/-- Python truthiness of an optional integer argument: `None` and `0` are falsy. -/
def truthyInt : Option Int → Bool
  | none => false
  | some n => n != 0

/-- Python truthiness of an optional string argument: `None` and `""` are falsy. -/
def truthyStr : Option String → Bool
  | none => false
  | some t => !t.isEmpty

/-- JSON value carried by an optional dict parameter (`None` serialises to
JSON `null`). -/
def jopt : Option Dict → JVal
  | none => JVal.null
  | some d => JVal.obj d

/-- Exceptions the module can raise, identified by kind.  The first three are
the `ValueError`s raised explicitly by `indextools.py` (messages
`'index not existed: ...'`, `'... index already existed.'`,
`'There should be exactly one doc_type in a mapping.'`); the last two are
unguarded Python failures: a `KeyError` from an unchecked item lookup and an
`AttributeError` from calling `.pop` on a non-dict value. -/
inductive Err where
  | indexNotFound (name : String)
  | alreadyExists (name : String)
  | invalidMappingShape
  | keyError (k : String)
  | attributeError
deriving Repr, DecidableEq

/-- Server-side content of one live index, as reported by the client's read
calls after unwrapping the per-index envelope. -/
structure IndexData where
  mapping : Dict
  settings : Dict
  stats : Dict
deriving Repr

/-- State of the remote service: the existing indices, keyed by name. -/
structure ESState where
  indices : List (String × IndexData)
deriving Repr

/-- Server-side data for the named index, if it exists. -/
def ESState.find (s : ESState) (name : String) : Option IndexData :=
  findEntry s.indices name

/-- Model of `es.indices.exists(index_name)`. -/
def es_exists (s : ESState) (name : String) : Bool :=
  (s.find name).isSome

/-- Model of `es.indices.get(index_name)[index_name]`: the full index
description.  Call sites guard with an existence check first, so the absent
case (where the real client raises) is never consulted. -/
def es_get (s : ESState) (name : String) : Dict :=
  match s.find name with
  | some d => [("mappings", JVal.obj d.mapping), ("settings", JVal.obj d.settings)]
  | none => []

/-- Model of `es.indices.get_mapping(index=name)[name]['mappings']`. -/
def es_get_mapping (s : ESState) (name : String) : Dict :=
  match s.find name with
  | some d => d.mapping
  | none => []

/-- Model of `es.indices.get_settings(index=name)[name]['settings']`. -/
def es_get_settings (s : ESState) (name : String) : Dict :=
  match s.find name with
  | some d => d.settings
  | none => []

/-- Model of `es.indices.stats(index=name)['indices'][name]`. -/
def es_stats (s : ESState) (name : String) : Dict :=
  match s.find name with
  | some d => d.stats
  | none => []

/-- Write requests issued to the client, in order. -/
inductive Effect where
  | createIndex (name : String) (body : Dict)
  | deleteIndex (name : String)
  | reindex (body : Dict)
deriving Repr

/-- Server-side index content resulting from a create call with the given
body: the index holds the `mappings` and `settings` carried in the body. -/
def dataOfBody (body : Dict) : IndexData :=
  { mapping :=
      match Dict.get? body "mappings" with
      | some (JVal.obj m) => m
      | _ => []
    settings :=
      match Dict.get? body "settings" with
      | some (JVal.obj st) => st
      | _ => []
    stats := [] }

/-- Server effect of `es.indices.create(index=name, body=body)`. -/
def es_create (s : ESState) (name : String) (body : Dict) : ESState :=
  ⟨setEntry s.indices name (dataOfBody body)⟩

/-- Server effect of `es.indices.delete(index=name, ignore=404)`: removes the
index if present; a missing index is not an error (404 suppressed). -/
def es_delete (s : ESState) (name : String) : ESState :=
  ⟨s.indices.filter (fun p => p.1 != name)⟩

/-- Source: `IndexTool.exists` — passthrough to the client's existence check. -/
def exists_index (s : ESState) (index_name : String) : Bool :=
  es_exists s index_name

/-- Source: `IndexTool.get_info` — `None` when the index does not exist,
otherwise the unwrapped index description. -/
def get_info (s : ESState) (index_name : String) : Option Dict :=
  if !exists_index s index_name then none
  else some (es_get s index_name)

/-- Source: `IndexTool.get_mapping` — `None` when the index does not exist,
otherwise the unwrapped mapping content. -/
def get_mapping (s : ESState) (index_name : String) : Option Dict :=
  if !exists_index s index_name then none
  else some (es_get_mapping s index_name)

/-- Source: `IndexTool.set_doctype`.  The singleton match is the source's
guard `len(mapping.keys()) != 1` followed by `key = list(mapping.keys())[0]`;
the rebinding is the source's `mapping[doc_type] = mapping[key]` followed by
`mapping.pop(key)`. -/
def set_doctype (mapping : Dict) (doc_type : String) : Except Err Dict :=
  match mapping with
  | [(key, body)] =>
    if key = doc_type then .ok mapping
    else .ok (Dict.pop (Dict.set mapping doc_type body) key)
  | _ => .error .invalidMappingShape

/-- Source: `IndexTool.clone_mapping` — raises INDEX_NOT_FOUND when the index
is missing; fetches the mapping and, when `doc_type` is truthy, retypes it via
`set_doctype` (whose exception propagates). -/
def clone_mapping (s : ESState) (index_name : String) (doc_type : Option String) :
    Except Err Dict :=
  if !exists_index s index_name then .error (.indexNotFound index_name)
  else
    let mapping := es_get_mapping s index_name
    if truthyStr doc_type then set_doctype mapping (doc_type.getD "")
    else .ok mapping

/-- Source: `IndexTool.get_settings` — `None` when the index does not exist,
otherwise the unwrapped settings content. -/
def get_settings (s : ESState) (index_name : String) : Option Dict :=
  if !exists_index s index_name then none
  else some (es_get_settings s index_name)

/-- Source: `IndexTool.clone_settings` — raises INDEX_NOT_FOUND when the index
is missing; fetches the settings and pops the four server-assigned keys from
`settings['index']`.  The lookup `settings['index']` is unguarded: a missing
key raises `KeyError`, and a non-dict value raises `AttributeError` at the
first `.pop`. -/
def clone_settings (s : ESState) (index_name : String) : Except Err Dict :=
  if !exists_index s index_name then .error (.indexNotFound index_name)
  else
    let settings := es_get_settings s index_name
    match Dict.get? settings "index" with
    | some (JVal.obj inner) =>
      let inner :=
        Dict.pop (Dict.pop (Dict.pop (Dict.pop inner "creation_date") "version") "uuid")
          "provided_name"
      .ok (Dict.set settings "index" (JVal.obj inner))
    | some _ => .error .attributeError
    | none => .error (.keyError "index")

/-- Source: `IndexTool.stats` — `None` when the index does not exist,
otherwise the unwrapped per-index stats. -/
def stats (s : ESState) (index_name : String) : Option Dict :=
  if !exists_index s index_name then none
  else some (es_stats s index_name)

/-- Source: `IndexTool.delete` — unconditional client delete with 404
suppressed, hence idempotent. -/
def delete (s : ESState) (index_name : String) :
    Except Err Unit × ESState × List Effect :=
  (.ok (), es_delete s index_name, [.deleteIndex index_name])

/-- Tail of `IndexTool.create` after the existence/overwrite guard: pick the
creation payload (`body` if truthy, else `{'settings': ..., 'mappings': ...}`)
and issue the create call.  `tr` is the trace issued by the guard. -/
def create_go (s : ESState) (index_name : String)
    (body mapping settings : Option Dict) (tr : List Effect) :
    Except Err Unit × ESState × List Effect :=
  let payload :=
    if truthyDict body then body.getD []
    else [("settings", jopt settings), ("mappings", jopt mapping)]
  (.ok (), es_create s index_name payload, tr ++ [.createIndex index_name payload])

/-- Source: `IndexTool.create`. -/
def create (s : ESState) (index_name : String)
    (body mapping settings : Option Dict) (overwrite : Bool) :
    Except Err Unit × ESState × List Effect :=
  if exists_index s index_name then
    if !overwrite then (.error (.alreadyExists index_name), s, [])
    else
      let r := delete s index_name
      create_go r.2.1 index_name body mapping settings r.2.2
  else
    create_go s index_name body mapping settings []

/-- Source: `IndexTool.clone`.  The returned `Dict` on success is the body of
the reindex request submitted to the client (the model of the accepted
reindex handle).  `overwrite=None` is falsy when `create` tests
`if not overwrite`, so the optional flag is passed down as `overwrite.getD
false`. -/
def clone (s : ESState) (src_index dest_index : String)
    (mapping settings : Option Dict) (size : Option Int) (script : Option Dict)
    (overwrite : Option Bool) :
    Except Err Dict × ESState × List Effect :=
  if !exists_index s src_index then (.error (.indexNotFound src_index), s, [])
  else
    match (if truthyDict mapping then .ok (mapping.getD [])
           else clone_mapping s src_index none) with
    | .error e => (.error e, s, [])
    | .ok mapping =>
      match (if truthyDict settings then .ok (settings.getD [])
             else clone_settings s src_index) with
      | .error e => (.error e, s, [])
      | .ok settings =>
        match create s dest_index none (some mapping) (some settings)
            (overwrite.getD false) with
        | (.error e, s1, tr) => (.error e, s1, tr)
        | (.ok _, s1, tr) =>
          let body : Dict :=
            [("source", JVal.obj [("index", JVal.str src_index)]),
             ("dest", JVal.obj [("index", JVal.str dest_index)])]
          let body :=
            if truthyInt size then Dict.set body "size" (JVal.int (size.getD 0))
            else body
          let body :=
            if truthyDict script then Dict.set body "script" (JVal.obj (script.getD []))
            else body
          (.ok body, s1, tr ++ [.reindex body])

/-! ### Sample service states used by concrete witnesses and counterexamples -/

/-- Sample mapping (the spec's running example). -/
def docMapping : Dict :=
  [("doc", JVal.obj [("properties", JVal.obj [("f", JVal.obj [("type", JVal.str "text")])])])]

/-- Sample "index" sub-mapping with two of the four server-assigned keys
present (version and provided_name absent). -/
def srcIndexInner : Dict :=
  [("number_of_shards", JVal.str "3"),
   ("creation_date", JVal.str "1690000000"),
   ("uuid", JVal.str "abc")]

/-- Sample settings with server-assigned keys present under "index". -/
def srcSettings : Dict :=
  [("index", JVal.obj srcIndexInner)]

/-- Service state holding the single source index of the spec's example. -/
def srcState : ESState :=
  ⟨[("src", ⟨docMapping, srcSettings, []⟩)]⟩

/-- Service state holding both the source and an already-existing destination. -/
def bothState : ESState :=
  ⟨[("src", ⟨docMapping, srcSettings, []⟩), ("dst", ⟨docMapping, srcSettings, []⟩)]⟩

/-- Service state holding one index whose settings lack the "index" key. -/
def noIndexKeyState : ESState :=
  ⟨[("i", ⟨docMapping, [], []⟩)]⟩

/-! ### Dictionary lemmas -/

theorem get?_pop_self (d : Dict) (k : String) : Dict.get? (Dict.pop d k) k = none := by
  induction d with
  | nil => rfl
  | cons p rest ih =>
    obtain ⟨k', v⟩ := p
    simp only [Dict.pop, List.filter_cons] at *
    by_cases h : k' = k
    · simp [h, ih]
    · have hb : ((k', v).1 != k) = true := by simp [h]
      rw [hb]
      simpa [Dict.get?, findEntry, h] using ih

theorem get?_pop_of_none (d : Dict) (k k' : String) (h : Dict.get? d k = none) :
    Dict.get? (Dict.pop d k') k = none := by
  induction d with
  | nil => rfl
  | cons p rest ih =>
    obtain ⟨k1, v⟩ := p
    simp only [Dict.get?, findEntry] at h
    by_cases h1 : k1 = k
    · simp [h1] at h
    · simp only [if_neg h1] at h
      simp only [Dict.pop, List.filter_cons]
      by_cases h2 : k1 = k'
      · simp [h2]
        exact ih h
      · have hb : ((k1, v).1 != k') = true := by simp [h2]
        rw [hb]
        simpa [Dict.get?, findEntry, h1] using ih h

theorem get?_set_self (d : Dict) (k : String) (v : JVal) :
    Dict.get? (Dict.set d k v) k = some v := by
  induction d with
  | nil => simp [Dict.get?, Dict.set, setEntry, findEntry]
  | cons p rest ih =>
    obtain ⟨k', v'⟩ := p
    simp only [Dict.set, setEntry] at *
    by_cases h : k' = k
    · simp [h, Dict.get?, findEntry]
    · simpa [Dict.get?, findEntry, h] using ih

theorem get?_set_ne (d : Dict) (k k' : String) (v : JVal) (h : k' ≠ k) :
    Dict.get? (Dict.set d k v) k' = Dict.get? d k' := by
  have hk : ¬ k = k' := fun e => h (Eq.symm e)
  induction d with
  | nil => simp [Dict.get?, Dict.set, setEntry, findEntry, hk]
  | cons p rest ih =>
    obtain ⟨k1, v1⟩ := p
    by_cases h1 : k1 = k
    · subst h1
      simp [Dict.set, setEntry, Dict.get?, findEntry, hk]
    · by_cases h2 : k1 = k'
      · subst h2
        simp [Dict.set, setEntry, Dict.get?, findEntry, h1]
      · simp only [Dict.set, setEntry, Dict.get?, findEntry, if_neg h1, if_neg h2]
        exact ih

/-! ### Derived equations for the read+transform helpers -/

theorem clone_mapping_eq (s : ESState) (i : String) (h : exists_index s i = true) :
    clone_mapping s i none = .ok (es_get_mapping s i) := by
  simp [clone_mapping, h, truthyStr]

theorem clone_settings_eq (s : ESState) (i : String) (inner : Dict)
    (h1 : exists_index s i = true)
    (h2 : Dict.get? (es_get_settings s i) "index" = some (JVal.obj inner)) :
    clone_settings s i =
      .ok (Dict.set (es_get_settings s i) "index"
        (JVal.obj (Dict.pop (Dict.pop (Dict.pop (Dict.pop inner "creation_date")
          "version") "uuid") "provided_name"))) := by
  simp [clone_settings, h1, h2]

/-! ### Claim theorems -/

/-- C5: on a single-key mapping, `set_doctype` returns the mapping whose single
top-level key is `doc_type` bound to the same body; in particular when the key
already equals `doc_type` the output is the input unchanged. -/
theorem set_doctype_single_key (key : String) (body : JVal) (doc_type : String) :
    set_doctype [(key, body)] doc_type = .ok [(doc_type, body)] := by
  by_cases h : key = doc_type
  · simp [set_doctype, h]
  · simp [set_doctype, h, Dict.set, setEntry, Dict.pop, List.filter_cons,
      bne_self_eq_false, Ne.symm h]

/-- C6: a mapping whose number of top-level keys is not exactly one makes
`set_doctype` fail with INVALID_MAPPING_SHAPE. -/
theorem set_doctype_bad_shape (mapping : Dict) (doc_type : String)
    (h : mapping.length ≠ 1) :
    set_doctype mapping doc_type = .error .invalidMappingShape := by
  cases mapping with
  | nil => rfl
  | cons p rest =>
    cases rest with
    | nil => simp at h
    | cons q rest2 =>
      obtain ⟨k1, v1⟩ := p
      obtain ⟨k2, v2⟩ := q
      rfl

theorem set_doctype_bad_shape_witness :
    ([("a", JVal.null), ("b", JVal.null)] : Dict).length ≠ 1 ∧
    set_doctype [("a", JVal.null), ("b", JVal.null)] "t" = .error .invalidMappingShape :=
  ⟨by simp, set_doctype_bad_shape [("a", JVal.null), ("b", JVal.null)] "t" (by simp)⟩

/-- C2: when the source index does not exist, `clone` raises INDEX_NOT_FOUND,
leaves the service state unchanged and issues no write request, regardless of
the other arguments. -/
theorem clone_missing_source (s : ESState) (src dst : String)
    (mapping settings : Option Dict) (size : Option Int) (script : Option Dict)
    (overwrite : Option Bool) (h : exists_index s src = false) :
    clone s src dst mapping settings size script overwrite =
      (.error (.indexNotFound src), s, []) := by
  simp [clone, h]

theorem clone_missing_source_witness :
    exists_index ⟨[]⟩ "src" = false ∧
    clone ⟨[]⟩ "src" "dst" none none none none none =
      (.error (.indexNotFound "src"), (⟨[]⟩ : ESState), []) :=
  ⟨rfl, clone_missing_source ⟨[]⟩ "src" "dst" none none none none none rfl⟩

/-- C4: `create` on an existing index with `overwrite=False` raises
ALREADY_EXISTS, leaves the service state unchanged and issues no write
request. -/
theorem create_already_exists (s : ESState) (index_name : String)
    (body mapping settings : Option Dict) (h : exists_index s index_name = true) :
    create s index_name body mapping settings false =
      (.error (.alreadyExists index_name), s, []) := by
  simp [create, h]

theorem create_already_exists_witness :
    exists_index srcState "src" = true ∧
    create srcState "src" none none none false =
      (.error (.alreadyExists "src"), srcState, []) :=
  ⟨rfl, create_already_exists srcState "src" none none none rfl⟩

/-- C8: for a missing index, `get_info`, `get_mapping`, `get_settings` and
`stats` all return `none` rather than raising. -/
theorem accessors_absent_on_missing (s : ESState) (index_name : String)
    (h : exists_index s index_name = false) :
    get_info s index_name = none ∧ get_mapping s index_name = none ∧
    get_settings s index_name = none ∧ stats s index_name = none := by
  simp [get_info, get_mapping, get_settings, stats, h]

theorem accessors_absent_on_missing_witness :
    exists_index ⟨[]⟩ "ghost" = false ∧
    (get_info ⟨[]⟩ "ghost" = none ∧ get_mapping ⟨[]⟩ "ghost" = none ∧
     get_settings ⟨[]⟩ "ghost" = none ∧ stats ⟨[]⟩ "ghost" = none) :=
  ⟨rfl, accessors_absent_on_missing ⟨[]⟩ "ghost" rfl⟩

/-- C10: for an existing index whose fetched settings lack the "index" key,
`clone_settings` raises an unguarded lookup error (`KeyError`) instead of
returning settings or a domain error. -/
theorem clone_settings_keyerror (s : ESState) (index_name : String)
    (h1 : exists_index s index_name = true)
    (h2 : Dict.get? (es_get_settings s index_name) "index" = none) :
    clone_settings s index_name = .error (.keyError "index") := by
  simp [clone_settings, h1, h2]

theorem clone_settings_keyerror_witness :
    exists_index noIndexKeyState "i" = true ∧
    Dict.get? (es_get_settings noIndexKeyState "i") "index" = none ∧
    clone_settings noIndexKeyState "i" = .error (.keyError "index") :=
  ⟨rfl, rfl, clone_settings_keyerror noIndexKeyState "i" rfl rfl⟩

/-- C3 (amended): for an existing index whose fetched settings bind "index" to
an object, `clone_settings` succeeds and its result binds "index" to an object
containing none of creation_date, version, uuid, provided_name — whether or
not each of those four keys was present in the source. -/
theorem clone_settings_strips (s : ESState) (index_name : String) (inner : Dict)
    (h1 : exists_index s index_name = true)
    (h2 : Dict.get? (es_get_settings s index_name) "index" = some (JVal.obj inner)) :
    ∃ out inner2, clone_settings s index_name = .ok out ∧
      Dict.get? out "index" = some (JVal.obj inner2) ∧
      Dict.get? inner2 "creation_date" = none ∧
      Dict.get? inner2 "version" = none ∧
      Dict.get? inner2 "uuid" = none ∧
      Dict.get? inner2 "provided_name" = none := by
  refine ⟨_, _, clone_settings_eq s index_name inner h1 h2, get?_set_self _ _ _,
    ?_, ?_, ?_, ?_⟩
  · exact get?_pop_of_none _ _ _ (get?_pop_of_none _ _ _
      (get?_pop_of_none _ _ _ (get?_pop_self inner "creation_date")))
  · exact get?_pop_of_none _ _ _ (get?_pop_of_none _ _ _
      (get?_pop_self (Dict.pop inner "creation_date") "version"))
  · exact get?_pop_of_none _ _ _
      (get?_pop_self (Dict.pop (Dict.pop inner "creation_date") "version") "uuid")
  · exact get?_pop_self
      (Dict.pop (Dict.pop (Dict.pop inner "creation_date") "version") "uuid")
      "provided_name"

theorem clone_settings_strips_witness :
    exists_index srcState "src" = true ∧
    Dict.get? (es_get_settings srcState "src") "index" = some (JVal.obj srcIndexInner) ∧
    (∃ out inner2, clone_settings srcState "src" = .ok out ∧
      Dict.get? out "index" = some (JVal.obj inner2) ∧
      Dict.get? inner2 "creation_date" = none ∧
      Dict.get? inner2 "version" = none ∧
      Dict.get? inner2 "uuid" = none ∧
      Dict.get? inner2 "provided_name" = none) :=
  ⟨rfl, rfl, clone_settings_strips srcState "src" srcIndexInner rfl rfl⟩

/-- C3 counterexample: an existing index whose fetched settings lack the
"index" key makes `clone_settings` raise an unguarded KeyError rather than
succeed, so the claim's "no error for every existing index" fails. -/
theorem clone_settings_no_index_cex :
    exists_index noIndexKeyState "i" = true ∧
    clone_settings noIndexKeyState "i" = .error (.keyError "index") :=
  ⟨rfl, rfl⟩

/-- C1 (amended): for an existing source whose settings bind "index" to an
object, and a destination that does not yet exist, `clone` with every optional
argument at its default creates the destination with exactly the source's
mapping and the source's settings with the four server-assigned keys stripped
from the "index" sub-mapping, and then submits a reindex request whose body is
exactly source/dest. -/
theorem clone_default_payloads (s : ESState) (src dst : String) (inner : Dict)
    (h1 : exists_index s src = true)
    (h2 : Dict.get? (es_get_settings s src) "index" = some (JVal.obj inner))
    (h3 : exists_index s dst = false) :
    clone s src dst none none none none none =
      (.ok [("source", JVal.obj [("index", JVal.str src)]),
            ("dest", JVal.obj [("index", JVal.str dst)])],
       es_create s dst
         [("settings", JVal.obj (Dict.set (es_get_settings s src) "index"
             (JVal.obj (Dict.pop (Dict.pop (Dict.pop (Dict.pop inner "creation_date")
               "version") "uuid") "provided_name")))),
          ("mappings", JVal.obj (es_get_mapping s src))],
       [.createIndex dst
          [("settings", JVal.obj (Dict.set (es_get_settings s src) "index"
              (JVal.obj (Dict.pop (Dict.pop (Dict.pop (Dict.pop inner "creation_date")
                "version") "uuid") "provided_name")))),
           ("mappings", JVal.obj (es_get_mapping s src))],
        .reindex [("source", JVal.obj [("index", JVal.str src)]),
                  ("dest", JVal.obj [("index", JVal.str dst)])]]) := by
  have hm := clone_mapping_eq s src h1
  have hs := clone_settings_eq s src inner h1 h2
  simp [clone, h1, hm, hs, create, h3, create_go, truthyDict, truthyInt, jopt]

theorem clone_default_payloads_witness :
    exists_index srcState "src" = true ∧
    Dict.get? (es_get_settings srcState "src") "index" = some (JVal.obj srcIndexInner) ∧
    exists_index srcState "dst" = false ∧
    clone srcState "src" "dst" none none none none none =
      (.ok [("source", JVal.obj [("index", JVal.str "src")]),
            ("dest", JVal.obj [("index", JVal.str "dst")])],
       es_create srcState "dst"
         [("settings", JVal.obj (Dict.set (es_get_settings srcState "src") "index"
             (JVal.obj (Dict.pop (Dict.pop (Dict.pop (Dict.pop srcIndexInner
               "creation_date") "version") "uuid") "provided_name")))),
          ("mappings", JVal.obj (es_get_mapping srcState "src"))],
       [.createIndex "dst"
          [("settings", JVal.obj (Dict.set (es_get_settings srcState "src") "index"
              (JVal.obj (Dict.pop (Dict.pop (Dict.pop (Dict.pop srcIndexInner
                "creation_date") "version") "uuid") "provided_name")))),
           ("mappings", JVal.obj (es_get_mapping srcState "src"))],
        .reindex [("source", JVal.obj [("index", JVal.str "src")]),
                  ("dest", JVal.obj [("index", JVal.str "dst")])]]) :=
  ⟨rfl, rfl, rfl, clone_default_payloads srcState "src" "dst" srcIndexInner rfl rfl rfl⟩

/-- C1 counterexample: when the destination already exists (overwrite at its
default), `clone` on an existing source raises ALREADY_EXISTS, creates
nothing and submits no reindex request — the claim's unconditional
create-then-reindex does not occur. -/
theorem clone_dest_exists_cex :
    exists_index bothState "src" = true ∧
    clone bothState "src" "dst" none none none none none =
      (.error (.alreadyExists "dst"), bothState, []) :=
  ⟨rfl, rfl⟩

/-- C7 (amended): whenever `create` does not fail with ALREADY_EXISTS (the
index is absent, or overwrite is set), the creation request it issues carries
the provided body verbatim when that body is truthy (not None and non-empty),
ignoring mapping/settings; otherwise it carries exactly
`{'settings': settings, 'mappings': mapping}` with either component possibly
null. -/
theorem create_payload_shape (s : ESState) (index_name : String)
    (body mapping settings : Option Dict) (overwrite : Bool)
    (h : exists_index s index_name = true → overwrite = true) :
    (truthyDict body = true →
      ∃ tr, (create s index_name body mapping settings overwrite).2.2 =
        tr ++ [.createIndex index_name (body.getD [])]) ∧
    (truthyDict body = false →
      ∃ tr, (create s index_name body mapping settings overwrite).2.2 =
        tr ++ [.createIndex index_name
          [("settings", jopt settings), ("mappings", jopt mapping)]]) := by
  by_cases he : exists_index s index_name = true
  · have ho := h he
    subst ho
    constructor <;> intro hb <;>
      exact ⟨[.deleteIndex index_name], by simp [create, he, delete, create_go, hb]⟩
  · rw [Bool.not_eq_true] at he
    constructor <;> intro hb <;>
      exact ⟨[], by simp [create, he, create_go, hb]⟩

theorem create_payload_shape_witness :
    (exists_index srcState "src" = true → true = true) ∧
    ((truthyDict (some [("k", JVal.null)]) = true →
      ∃ tr, (create srcState "src" (some [("k", JVal.null)]) none none true).2.2 =
        tr ++ [.createIndex "src" ((some [("k", JVal.null)]).getD [])]) ∧
     (truthyDict (some [("k", JVal.null)]) = false →
      ∃ tr, (create srcState "src" (some [("k", JVal.null)]) none none true).2.2 =
        tr ++ [.createIndex "src" [("settings", jopt none), ("mappings", jopt none)]])) :=
  ⟨fun _ => rfl,
   create_payload_shape srcState "src" (some [("k", JVal.null)]) none none true
     (fun _ => rfl)⟩

/-- C7 counterexample: a provided-but-empty body is falsy in the source's
`if body:` test, so it is not sent verbatim — the assembled payload
`{'settings': None, 'mappings': None}` is sent instead. -/
theorem create_empty_body_cex :
    create ⟨[]⟩ "i" (some []) none none false =
      (.ok (), es_create ⟨[]⟩ "i" [("settings", JVal.null), ("mappings", JVal.null)],
       [.createIndex "i" [("settings", JVal.null), ("mappings", JVal.null)]]) ∧
    ([("settings", JVal.null), ("mappings", JVal.null)] : Dict) ≠ [] :=
  ⟨rfl, by simp⟩

/-- C9 (amended): on every successful `clone` call, the returned/submitted
reindex body contains "size" bound to the given size whenever the size
argument is set to a nonzero value, contains "script" bound to the given
script whenever that argument is given non-empty, and consists of exactly the
source/dest keys when neither is given. -/
theorem clone_reindex_body_opts (s : ESState) (src dst : String)
    (mapping settings : Option Dict) (size : Option Int) (script : Option Dict)
    (overwrite : Option Bool) (b : Dict)
    (hb : (clone s src dst mapping settings size script overwrite).1 = .ok b) :
    (∀ n : Int, size = some n → n ≠ 0 → Dict.get? b "size" = some (JVal.int n)) ∧
    (∀ sc : Dict, script = some sc → sc ≠ [] →
      Dict.get? b "script" = some (JVal.obj sc)) ∧
    (size = none → script = none →
      b = [("source", JVal.obj [("index", JVal.str src)]),
           ("dest", JVal.obj [("index", JVal.str dst)])]) := by
  unfold clone at hb
  by_cases he : exists_index s src = true
  · rw [he] at hb
    simp only [Bool.not_true, Bool.false_eq_true, if_false] at hb
    cases hm : (if truthyDict mapping then Except.ok (mapping.getD [])
        else clone_mapping s src none) with
    | error e =>
      rw [hm] at hb
      simp at hb
    | ok m =>
      rw [hm] at hb
      simp only [] at hb
      cases hst : (if truthyDict settings then Except.ok (settings.getD [])
          else clone_settings s src) with
      | error e =>
        rw [hst] at hb
        simp at hb
      | ok st =>
        rw [hst] at hb
        simp only [] at hb
        rcases hc : create s dst none (some m) (some st) (overwrite.getD false)
          with ⟨r, s1, tr⟩
        rw [hc] at hb
        cases r with
        | error e => simp at hb
        | ok u =>
          simp only [Except.ok.injEq, Option.getD_some] at hb
          refine ⟨?_, ?_, ?_⟩
          · intro n hn hz
            subst hn
            have ht : truthyInt (some n) = true := by simp [truthyInt, hz]
            by_cases hsc : truthyDict script = true
            · simp only [ht, hsc, if_true, ite_true, Option.getD_some] at hb
              subst hb
              rw [get?_set_ne _ _ _ _ (by decide), get?_set_self]
            · simp only [Bool.not_eq_true] at hsc
              simp only [ht, hsc, if_true, ite_true, Bool.false_eq_true, if_false,
                ite_false, Option.getD_some] at hb
              subst hb
              rw [get?_set_self]
          · intro sc hsc hne
            subst hsc
            have ht : truthyDict (some sc) = true := by
              cases sc with
              | nil => exact absurd rfl hne
              | cons p l => rfl
            simp only [ht, if_true, ite_true, Option.getD_some] at hb
            subst hb
            rw [get?_set_self]
          · intro h4 h5
            subst h4
            subst h5
            have tin : truthyInt none = false := rfl
            have tdn : truthyDict none = false := rfl
            simp only [tin, tdn, Bool.false_eq_true, if_false, ite_false] at hb
            subst hb
            rfl
  · rw [Bool.not_eq_true] at he
    rw [he] at hb
    simp at hb

theorem clone_reindex_body_opts_witness :
    (clone srcState "src" "dst" none none (some 100)
        (some [("source", JVal.str "ctx")]) none).1 =
      .ok [("source", JVal.obj [("index", JVal.str "src")]),
           ("dest", JVal.obj [("index", JVal.str "dst")]),
           ("size", JVal.int 100),
           ("script", JVal.obj [("source", JVal.str "ctx")])] ∧
    ((∀ n : Int, (some 100 : Option Int) = some n → n ≠ 0 →
      Dict.get? [("source", JVal.obj [("index", JVal.str "src")]),
                 ("dest", JVal.obj [("index", JVal.str "dst")]),
                 ("size", JVal.int 100),
                 ("script", JVal.obj [("source", JVal.str "ctx")])] "size" =
        some (JVal.int n)) ∧
     (∀ sc : Dict, (some [("source", JVal.str "ctx")] : Option Dict) = some sc →
      sc ≠ [] →
      Dict.get? [("source", JVal.obj [("index", JVal.str "src")]),
                 ("dest", JVal.obj [("index", JVal.str "dst")]),
                 ("size", JVal.int 100),
                 ("script", JVal.obj [("source", JVal.str "ctx")])] "script" =
        some (JVal.obj sc)) ∧
     ((some 100 : Option Int) = none → (some [("source", JVal.str "ctx")] : Option Dict) = none →
      ([("source", JVal.obj [("index", JVal.str "src")]),
        ("dest", JVal.obj [("index", JVal.str "dst")]),
        ("size", JVal.int 100),
        ("script", JVal.obj [("source", JVal.str "ctx")])] : Dict) =
        [("source", JVal.obj [("index", JVal.str "src")]),
         ("dest", JVal.obj [("index", JVal.str "dst")])])) :=
  ⟨rfl,
   clone_reindex_body_opts srcState "src" "dst" none none (some 100)
     (some [("source", JVal.str "ctx")]) none
     [("source", JVal.obj [("index", JVal.str "src")]),
      ("dest", JVal.obj [("index", JVal.str "dst")]),
      ("size", JVal.int 100),
      ("script", JVal.obj [("source", JVal.str "ctx")])] rfl⟩

/-- C9 counterexample: size=0 and script={} are given but falsy in the
source's truthiness tests, so the successful reindex body contains neither a
"size" nor a "script" key. -/
theorem clone_falsy_opts_cex :
    (clone srcState "src" "dst" none none (some 0) (some []) none).1 =
      .ok [("source", JVal.obj [("index", JVal.str "src")]),
           ("dest", JVal.obj [("index", JVal.str "dst")])] ∧
    Dict.get? [("source", JVal.obj [("index", JVal.str "src")]),
               ("dest", JVal.obj [("index", JVal.str "dst")])] "size" = none ∧
    Dict.get? [("source", JVal.obj [("index", JVal.str "src")]),
               ("dest", JVal.obj [("index", JVal.str "dst")])] "script" = none :=
  ⟨rfl, rfl, rfl⟩

end ElasticTools
